import Mathlib

/-!
Shallow embedding of the talktive client (src/client/components/App.jsx and
src/client/utils/performance.js) and proofs about its recording state
machine, VAD settings dispatcher, event log and performance helpers.

The React component state is modelled as an explicit record `AppState`;
each callback of the component becomes a state transformer, returning the
list of JSON control messages written to the data channel during the call.
Machine-irrelevant side effects (console logging) are modelled only where a
claim mentions them (warning flags).
-/

namespace Talktive

/-- Ready state of the RTC data channel, as read from `readyState`. -/
inductive DCState where
  | connecting
  | dcOpen
  | dcClosed
deriving DecidableEq, Repr

/-- A JSON control message. Only the fields the client ever produces or
inspects are modelled; `none` means the field is absent from the JSON
object. `event_id` and `timestamp` are the fields `sendClientEvent` adds
(identifiers abstracted to naturals drawn from a counter, wall-clock
timestamps abstracted to a natural). -/
structure Msg where
  type : String
  threshold : Option ℚ := none
  silence_duration_ms : Option ℕ := none
  itemRole : Option String := none
  itemContentType : Option String := none
  itemText : Option String := none
  event_id : Option ℕ := none
  timestamp : Option ℕ := none
deriving DecidableEq, Repr

/-- Environment-derived configuration of App.jsx (lines 22-28):
push-to-talk auto-stop limit and the VAD threshold bounds/default. -/
structure Config where
  pushToTalkTimeLimit : ℤ
  vadThresholdDefault : ℚ
  vadThresholdMin : ℚ
  vadThresholdMax : ℚ
deriving DecidableEq, Repr

/-- `parseInt(import.meta.env.VITE_PUSH_TO_TALK_TIME_LIMIT) || 5000`:
an absent or non-numeric variable parses to NaN (modelled `none`) and the
falsy values NaN and 0 fall back to the default 5000. -/
def pushToTalkTimeLimitOfEnv (env : Option ℤ) : ℤ :=
  match env with
  | none => 5000
  | some n => if n = 0 then 5000 else n

/-- Component-local state of App.jsx: the `useState`/`useRef` cells.
`isRecording` stands for the always-synchronised pair
`isRecording`/`isRecordingRef.current`; `micTrack` is `none` when no local
stream or audio track exists and `some e` when the single audio track has
`enabled = e`; `spaceKeyTimer` holds the delay of the pending auto-stop
timeout, `none` when no timer is armed; `nextId` feeds fresh event ids and
`now` is the clock used for timestamps. -/
structure AppState where
  isSessionActive : Bool
  events : List Msg
  dataChannel : Option DCState
  isPushToTalkEnabled : Bool
  isRecording : Bool
  micTrack : Option Bool
  spaceKeyTimer : Option ℤ
  vadThreshold : ℚ
  nextId : ℕ
  now : ℕ
deriving DecidableEq, Repr

/-- Initial component state (App.jsx lines 8-31). -/
def initState (cfg : Config) : AppState :=
  { isSessionActive := false
    events := []
    dataChannel := none
    isPushToTalkEnabled := false
    isRecording := false
    micTrack := none
    spaceKeyTimer := none
    vadThreshold := cfg.vadThresholdDefault
    nextId := 0
    now := 0 }

/-- `sendClientEvent` (App.jsx lines 34-57): when a data channel exists,
attach a (fresh, unless preset) `event_id`, send the serialized message on
the wire, and only afterwards attach a `timestamp` (unless one exists) to
the record prepended to the event log. Without a channel the call logs an
error and does nothing. Returns the new state and the wire-sent messages. -/
def sendClientEvent (s : AppState) (m : Msg) : AppState × List Msg :=
  match s.dataChannel with
  | some _ =>
      let wire : Msg := { m with event_id := some (m.event_id.getD s.nextId) }
      let logged : Msg :=
        if wire.timestamp.isSome then wire else { wire with timestamp := some s.now }
      ({ s with events := logged :: s.events, nextId := s.nextId + 1 }, [wire])
  | none => (s, [])

/-- `toggleMicrophone` (App.jsx lines 60-72): sets `enabled` on the audio
track when a local stream with a track exists, otherwise only logs. -/
def toggleMicrophone (s : AppState) (enabled : Bool) : AppState :=
  { s with micTrack := s.micTrack.map (fun _ => enabled) }

/-- The `session.update` VAD configuration event built by
`updateVADSettings` (App.jsx lines 78-91). -/
def vadEvent (t : ℚ) : Msg :=
  { type := "session.update"
    threshold := some t
    silence_duration_ms := some (if t > 7/10 then 1000 else 500) }

/-- `updateVADSettings` (App.jsx lines 75-98): sends the VAD configuration
iff the data channel exists with `readyState === 'open'` and push-to-talk
is disabled; otherwise only logs and changes nothing. -/
def updateVADSettings (s : AppState) : AppState × List Msg :=
  if s.dataChannel = some DCState.dcOpen ∧ s.isPushToTalkEnabled = false then
    sendClientEvent s (vadEvent s.vadThreshold)
  else (s, [])

/-- `stopRecording` (App.jsx lines 101-127): a no-op when not recording;
otherwise clears the auto-stop timer, resets the recording flag, disables
the microphone track and requests a response via `sendClientEvent`. -/
def stopRecording (s : AppState) : AppState × List Msg :=
  if s.isRecording = false then (s, [])
  else
    let s1 := { s with spaceKeyTimer := none, isRecording := false }
    let s2 := toggleMicrophone s1 false
    sendClientEvent s2 { type := "response.create" }

/-- `startRecording` (App.jsx lines 130-153): returns unchanged unless the
session is active, a data channel exists and recording is not already in
progress; on success sets the recording flag, enables the microphone track
and arms the auto-stop timer for the configured limit. -/
def startRecording (cfg : Config) (s : AppState) : AppState :=
  if s.isSessionActive = true ∧ s.dataChannel.isSome ∧ s.isRecording = false then
    let s1 := { s with isRecording := true }
    let s2 := toggleMicrophone s1 true
    { s2 with spaceKeyTimer := some cfg.pushToTalkTimeLimit }
  else s

/-- `togglePushToTalk` (App.jsx lines 206-228): flips the mode, resets the
recording flag, clears any pending timer and sets the microphone enabled
complementary to the new mode. -/
def togglePushToTalk (s : AppState) : AppState :=
  let newMode := !s.isPushToTalkEnabled
  let s1 := { s with isPushToTalkEnabled := newMode, isRecording := false,
                     spaceKeyTimer := none }
  toggleMicrophone s1 (!newMode)

/-- `resetVadThreshold` (App.jsx lines 231-234): stores the configured
default, unclamped, and logs (not warns). -/
def resetVadThreshold (cfg : Config) (s : AppState) : AppState :=
  { s with vadThreshold := cfg.vadThresholdDefault }

/-- `validateAndSetVadThreshold` (App.jsx lines 237-243): stores
`Math.max(min, Math.min(max, value))` and warns iff the value was changed
by clamping. Returns the new state and whether a warning was emitted. -/
def validateAndSetVadThreshold (cfg : Config) (s : AppState) (value : ℚ) :
    AppState × Bool :=
  let clampedValue := max cfg.vadThresholdMin (min cfg.vadThresholdMax value)
  ({ s with vadThreshold := clampedValue }, value ≠ clampedValue)

/-- `stopSession` (App.jsx lines 322-356): clears the timer, resets the
recording flag, closes and drops the data channel, stops and drops the
local stream, and deactivates the session. The event log is kept. -/
def stopSession (s : AppState) : AppState :=
  { s with spaceKeyTimer := none
           isRecording := false
           dataChannel := none
           micTrack := none
           isSessionActive := false }

/-- `sendTextMessage` (App.jsx lines 359-376): sends a
`conversation.item.create` carrying the text as a user message, then a
`response.create`. -/
def sendTextMessage (s : AppState) (message : String) : AppState × List Msg :=
  let ev : Msg :=
    { type := "conversation.item.create"
      itemRole := some "user"
      itemContentType := some "input_text"
      itemText := some message }
  let r1 := sendClientEvent s ev
  let r2 := sendClientEvent r1.1 { type := "response.create" }
  (r2.1, r1.2 ++ r2.2)

/-- The data channel `message` listener (App.jsx lines 382-389): parse the
inbound event, default its timestamp, and prepend it to the event log. -/
def handleChannelMessage (s : AppState) (m : Msg) : AppState :=
  let ev := if m.timestamp.isSome then m else { m with timestamp := some s.now }
  { s with events := ev :: s.events }

/-- The data channel `open` listener (App.jsx lines 392-400): mark the
session active and clear the event log. The deferred `updateVADSettings`
(via `setTimeout`) runs as a separate callback, modelled by its own
trigger. -/
def handleChannelOpen (s : AppState) : AppState :=
  match s.dataChannel with
  | some _ =>
      { s with dataChannel := some DCState.dcOpen
               isSessionActive := true
               events := [] }
  | none => s

/-- The part of `startSession` (App.jsx lines 245-319) visible in component
state: acquire the local stream (track enabled, but disabled up front in
push-to-talk mode, lines 286-289) and create the data channel (not yet
open). The session becomes active only on the channel `open` event. -/
def sessionInit (s : AppState) : AppState :=
  if s.isSessionActive then s
  else { s with dataChannel := some DCState.connecting
                micTrack := some (!s.isPushToTalkEnabled) }

/-- The event-loop callbacks that can fire on the component, with their
payloads. Key events carry whether the key is Space and whether the
key-down is an auto-repeat. -/
inductive Trigger where
  | keyDown (isSpace rep : Bool)
  | keyUp (isSpace : Bool)
  | autoStopTimer
  | togglePTT
  | sessionInitT
  | channelOpened
  | vadDispatch
  | sessionStop
  | setThreshold (v : ℚ)
  | resetThreshold
  | textMessage (t : String)
  | channelMessage (m : Msg)
deriving Repr

/-- One event-loop step of the component. The key handlers are installed
only while push-to-talk is enabled and the session active (App.jsx lines
156-203); `handleKeyDown` additionally requires Space, non-repeat and not
recording (line 167), `handleKeyUp` requires Space and recording (line
177). The auto-stop timer fires only while armed. The push-to-talk
checkbox is disabled while the session is active (line 435). `vadDispatch`
covers both the deferred dispatch after channel open and the threshold
effect (lines 397-399 and 405-409). -/
def step (cfg : Config) (s : AppState) (t : Trigger) : AppState :=
  match t with
  | .keyDown isSpace rep =>
      if s.isPushToTalkEnabled = true ∧ s.isSessionActive = true then
        if isSpace = true ∧ rep = false ∧ s.isRecording = false then
          startRecording cfg s
        else s
      else s
  | .keyUp isSpace =>
      if s.isPushToTalkEnabled = true ∧ s.isSessionActive = true then
        if isSpace = true ∧ s.isRecording = true then (stopRecording s).1 else s
      else s
  | .autoStopTimer =>
      if s.spaceKeyTimer.isSome then (stopRecording s).1 else s
  | .togglePTT =>
      if s.isSessionActive = true then s else togglePushToTalk s
  | .sessionInitT => sessionInit s
  | .channelOpened => handleChannelOpen s
  | .vadDispatch => (updateVADSettings s).1
  | .sessionStop => stopSession s
  | .setThreshold v => (validateAndSetVadThreshold cfg s v).1
  | .resetThreshold => resetVadThreshold cfg s
  | .textMessage t' => (sendTextMessage s t').1
  | .channelMessage m => handleChannelMessage s m

/-- States of the component reachable from the initial state by event-loop
callbacks. -/
inductive Reachable (cfg : Config) : AppState → Prop where
  | init : Reachable cfg (initState cfg)
  | step : ∀ {s} (t : Trigger), Reachable cfg s → Reachable cfg (step cfg s t)

/-- The claimed invariant: recording only while the session is active and
push-to-talk is enabled. -/
def InvC1 (s : AppState) : Prop :=
  s.isRecording = true → s.isSessionActive = true ∧ s.isPushToTalkEnabled = true

instance (s : AppState) : Decidable (InvC1 s) := by
  unfold InvC1; infer_instance

/-- A configuration with all environment variables absent: time limit 5000,
threshold default 0.5, bounds [0, 1]. -/
def cfg0 : Config :=
  { pushToTalkTimeLimit := 5000
    vadThresholdDefault := 1/2
    vadThresholdMin := 0
    vadThresholdMax := 1 }

/-- A configuration whose threshold default lies outside the bounds
(environment sets VITE_VAD_THRESHOLD_DEFAULT=2 with bounds [0, 1]). -/
def cfgBadDefault : Config :=
  { pushToTalkTimeLimit := 5000
    vadThresholdDefault := 2
    vadThresholdMin := 0
    vadThresholdMax := 1 }

/-- A state with an active session and an open data channel, continuous
(non-push-to-talk) mode, not recording. -/
def chanState : AppState :=
  { initState cfg0 with
      isSessionActive := true
      dataChannel := some DCState.dcOpen
      micTrack := some true }

/-- A state in push-to-talk mode, session active, channel open, currently
recording with the auto-stop timer armed. -/
def recState : AppState :=
  { initState cfg0 with
      isSessionActive := true
      dataChannel := some DCState.dcOpen
      isPushToTalkEnabled := true
      isRecording := true
      micTrack := some true
      spaceKeyTimer := some 5000 }

/-! Performance helpers (src/client/utils/performance.js). -/

/-- The browser's `performance.memory` object (absent outside Chromium). -/
structure MemoryInfo where
  usedJSHeapSize : ℚ
  totalJSHeapSize : ℚ
  jsHeapSizeLimit : ℚ
deriving DecidableEq, Repr

/-- A memory sample in megabytes as computed by `measureMemoryUsage`. -/
structure MemoryMB where
  used : ℚ
  total : ℚ
  limit : ℚ
deriving DecidableEq, Repr

/-- The `metrics` record of `PerformanceMonitor` (performance.js lines
3-11). Memory samples are records, the other series plain numbers. -/
structure PerfMetrics where
  audioLatency : List ℚ
  memoryUsage : List MemoryMB
  connectionTime : List ℚ
  vadResponseTime : List ℚ
deriving DecidableEq, Repr

/-- `measureMemoryUsage` (performance.js lines 33-49): when
`performance.memory` is absent, warn and return null, leaving the metrics
untouched; otherwise convert the heap sizes to MB, push the sample and
return it. Result: (returned value, new metrics, whether a warning was
emitted). -/
def measureMemoryUsage (perfMemory : Option MemoryInfo) (m : PerfMetrics) :
    Option MemoryMB × PerfMetrics × Bool :=
  match perfMemory with
  | none => (none, m, true)
  | some mem =>
      let sample : MemoryMB :=
        { used := mem.usedJSHeapSize / 1024 / 1024
          total := mem.totalJSHeapSize / 1024 / 1024
          limit := mem.jsHeapSizeLimit / 1024 / 1024 }
      (some sample, { m with memoryUsage := m.memoryUsage ++ [sample] }, false)

/-- One report from `peerConnection.getStats()` (only the fields the code
reads). -/
structure RTCReport where
  rtype : String
  mediaType : String
  packetsReceived : ℕ := 0
  packetsLost : ℕ := 0
  jitter : ℚ := 0
  audioLevel : ℚ := 0
  packetsSent : ℕ := 0
  bytesSent : ℕ := 0
deriving DecidableEq, Repr

/-- The inbound audio summary built by `getWebRTCStats`. -/
structure InboundAudio where
  packetsReceived : ℕ
  packetsLost : ℕ
  jitter : ℚ
  audioLevel : ℚ
deriving DecidableEq, Repr

/-- The outbound audio summary built by `getWebRTCStats`. -/
structure OutboundAudio where
  packetsSent : ℕ
  bytesSent : ℕ
deriving DecidableEq, Repr

/-- The `audioStats` object assembled by `getWebRTCStats`. -/
structure AudioStats where
  inbound : Option InboundAudio := none
  outbound : Option OutboundAudio := none
deriving DecidableEq, Repr

/-- The `stats.forEach` loop of `getWebRTCStats` (performance.js lines
131-147). -/
def foldReports (reports : List RTCReport) : AudioStats :=
  reports.foldl
    (fun acc report =>
      let inb : InboundAudio :=
        { packetsReceived := report.packetsReceived
          packetsLost := report.packetsLost
          jitter := report.jitter * 1000
          audioLevel := report.audioLevel }
      let outb : OutboundAudio :=
        { packetsSent := report.packetsSent
          bytesSent := report.bytesSent }
      let acc1 :=
        if report.rtype = "inbound-rtp" ∧ report.mediaType = "audio" then
          { acc with inbound := some inb }
        else acc
      if report.rtype = "outbound-rtp" ∧ report.mediaType = "audio" then
        { acc1 with outbound := some outb }
      else acc1)
    {}

/-- A peer connection as the stats helper sees it: `getStats()` either
resolves with a list of reports or rejects with an error message. -/
structure RTCPeer where
  getStatsResult : Except String (List RTCReport)
deriving Repr

/-- Fresh metrics, as built by the `PerformanceMonitor` constructor. -/
def emptyMetrics : PerfMetrics :=
  { audioLatency := []
    memoryUsage := []
    connectionTime := []
    vadResponseTime := [] }

/-- A peer connection whose `getStats()` rejects. -/
def failingPeer : RTCPeer :=
  { getStatsResult := Except.error "stats failed" }

/-- `getWebRTCStats` (performance.js lines 124-155): null when the peer
connection is absent; on a `getStats` rejection, log the error and return
null; otherwise fold the reports into the audio summary. -/
def getWebRTCStats (peerConnection : Option RTCPeer) : Option AudioStats :=
  match peerConnection with
  | none => none
  | some pc =>
      match pc.getStatsResult with
      | Except.error _ => none
      | Except.ok reports => some (foldReports reports)

/-! Helper lemmas shared by the claim theorems. -/

theorem sendClientEvent_flags (s : AppState) (m : Msg) :
    (sendClientEvent s m).1.isRecording = s.isRecording ∧
    (sendClientEvent s m).1.isSessionActive = s.isSessionActive ∧
    (sendClientEvent s m).1.isPushToTalkEnabled = s.isPushToTalkEnabled ∧
    (sendClientEvent s m).1.dataChannel = s.dataChannel ∧
    (sendClientEvent s m).1.spaceKeyTimer = s.spaceKeyTimer ∧
    (sendClientEvent s m).1.micTrack = s.micTrack := by
  cases hc : s.dataChannel <;> simp [sendClientEvent, hc]

theorem invC1_of_flags {s s' : AppState}
    (hr : s'.isRecording = s.isRecording)
    (ha : s'.isSessionActive = s.isSessionActive)
    (hp : s'.isPushToTalkEnabled = s.isPushToTalkEnabled)
    (h : InvC1 s) : InvC1 s' := by
  intro hrec
  rw [hr] at hrec
  obtain ⟨h1, h2⟩ := h hrec
  exact ⟨ha.trans h1, hp.trans h2⟩

theorem invC1_of_not_recording {s : AppState} (h : s.isRecording = false) :
    InvC1 s := by
  intro hrec
  rw [h] at hrec
  cases hrec

theorem stopRecording_not_recording (s : AppState) :
    (stopRecording s).1.isRecording = false := by
  unfold stopRecording
  by_cases h : s.isRecording = false
  · simp [h]
  · simp only [h, if_neg]
    obtain ⟨h1, -⟩ := sendClientEvent_flags
      (toggleMicrophone { s with spaceKeyTimer := none, isRecording := false } false)
      { type := "response.create" }
    simpa [toggleMicrophone] using h1

theorem stopRecording_flags (s : AppState) :
    (stopRecording s).1.isSessionActive = s.isSessionActive ∧
    (stopRecording s).1.isPushToTalkEnabled = s.isPushToTalkEnabled ∧
    (stopRecording s).1.dataChannel = s.dataChannel := by
  unfold stopRecording
  by_cases h : s.isRecording = false
  · simp [h]
  · simp only [h, if_neg]
    obtain ⟨-, h2, h3, h4, -⟩ := sendClientEvent_flags
      (toggleMicrophone { s with spaceKeyTimer := none, isRecording := false } false)
      { type := "response.create" }
    simp [toggleMicrophone] at h2 h3 h4
    simp [toggleMicrophone, h2, h3, h4]

theorem startRecording_flags (cfg : Config) (s : AppState) :
    (startRecording cfg s).isSessionActive = s.isSessionActive ∧
    (startRecording cfg s).isPushToTalkEnabled = s.isPushToTalkEnabled := by
  unfold startRecording
  by_cases h : s.isSessionActive = true ∧ s.dataChannel.isSome ∧ s.isRecording = false
  · simp [h, toggleMicrophone]
  · simp [h]

theorem invC1_startRecording (cfg : Config) {s : AppState}
    (h : InvC1 s) (hp : s.isPushToTalkEnabled = true) :
    InvC1 (startRecording cfg s) := by
  obtain ⟨ha, hq⟩ := startRecording_flags cfg s
  by_cases hact : s.isSessionActive = true
  · intro _
    exact ⟨ha.trans hact, hq.trans hp⟩
  · have : startRecording cfg s = s := by
      unfold startRecording
      simp [hact]
    rw [this]
    exact h

theorem invC1_stopRecording {s : AppState} : InvC1 (stopRecording s).1 :=
  invC1_of_not_recording (stopRecording_not_recording s)

theorem invC1_togglePushToTalk {s : AppState} : InvC1 (togglePushToTalk s) := by
  apply invC1_of_not_recording
  simp [togglePushToTalk, toggleMicrophone]

theorem invC1_stopSession {s : AppState} : InvC1 (stopSession s) := by
  apply invC1_of_not_recording
  simp [stopSession]

theorem step_preserves_invC1 (cfg : Config) (s : AppState) (t : Trigger)
    (h : InvC1 s) : InvC1 (step cfg s t) := by
  cases t with
  | keyDown isSpace rep =>
      simp only [step]
      split
      · next hg =>
          split
          · exact invC1_startRecording cfg h hg.1
          · exact h
      · exact h
  | keyUp isSpace =>
      simp only [step]
      split
      · split
        · exact invC1_stopRecording
        · exact h
      · exact h
  | autoStopTimer =>
      simp only [step]
      split
      · exact invC1_stopRecording
      · exact h
  | togglePTT =>
      simp only [step]
      split
      · exact h
      · exact invC1_togglePushToTalk
  | sessionInitT =>
      simp only [step, sessionInit]
      split
      · exact h
      · next hact =>
          intro hrec
          simp only at hrec
          exact absurd ((h hrec).1) (by simpa using hact)
  | channelOpened =>
      simp only [step, handleChannelOpen]
      cases hc : s.dataChannel with
      | none => exact h
      | some c =>
          intro hrec
          simp only at hrec ⊢
          exact ⟨trivial, (h hrec).2⟩
  | vadDispatch =>
      simp only [step, updateVADSettings]
      split
      · obtain ⟨h1, h2, h3, -⟩ := sendClientEvent_flags s (vadEvent s.vadThreshold)
        exact invC1_of_flags h1 h2 h3 h
      · exact h
  | sessionStop => exact invC1_stopSession
  | setThreshold v =>
      refine invC1_of_flags ?_ ?_ ?_ h <;> simp [step, validateAndSetVadThreshold]
  | resetThreshold =>
      refine invC1_of_flags ?_ ?_ ?_ h <;> simp [step, resetVadThreshold]
  | textMessage t' =>
      simp only [step, sendTextMessage]
      obtain ⟨a1, a2, a3, -⟩ := sendClientEvent_flags s
        { type := "conversation.item.create", itemRole := some "user",
          itemContentType := some "input_text", itemText := some t' }
      obtain ⟨b1, b2, b3, -⟩ := sendClientEvent_flags
        (sendClientEvent s
          { type := "conversation.item.create", itemRole := some "user",
            itemContentType := some "input_text", itemText := some t' }).1
        { type := "response.create" }
      exact invC1_of_flags (b1.trans a1) (b2.trans a2) (b3.trans a3) h
  | channelMessage m =>
      refine invC1_of_flags ?_ ?_ ?_ h <;> simp [step, handleChannelMessage]

theorem reachable_invC1 (cfg : Config) (s : AppState)
    (h : Reachable cfg s) : InvC1 s := by
  induction h with
  | init => exact invC1_of_not_recording rfl
  | step t _ ih => exact step_preserves_invC1 cfg _ t ih

/-- C1, counterexample: the claim also asserts that `startRecording`
preserves the invariant, but `startRecording` never checks
`isPushToTalkEnabled`. The reachable state with an active session in
continuous (non-push-to-talk) mode satisfies the invariant, yet applying
`startRecording` there yields `isRecording = true` with push-to-talk
disabled, violating it. -/
theorem C1_startRecording_not_preserving :
    Reachable cfg0 chanState ∧ InvC1 chanState ∧
    ¬ InvC1 (startRecording cfg0 chanState) := by
  refine ⟨?_, by decide, by decide⟩
  have h1 : Reachable cfg0 (step cfg0 (initState cfg0) Trigger.sessionInitT) :=
    Reachable.step _ Reachable.init
  have h2 : Reachable cfg0
      (step cfg0 (step cfg0 (initState cfg0) Trigger.sessionInitT) Trigger.channelOpened) :=
    Reachable.step _ h1
  have he : step cfg0 (step cfg0 (initState cfg0) Trigger.sessionInitT)
      Trigger.channelOpened = chanState := rfl
  rw [he] at h2
  exact h2

/-- C1 (amended): in every reachable state of the component, `isRecording`
is true only while the session is active and push-to-talk is enabled;
`stopRecording`, `togglePushToTalk` and `stopSession` preserve this
invariant from any state, and `startRecording` preserves it from any state
in which push-to-talk is enabled — the only states from which the
component invokes it, since the key handlers are installed only while
push-to-talk is enabled and the session active. -/
theorem C1_recording_invariant (cfg : Config) :
    (∀ s, Reachable cfg s → InvC1 s) ∧
    (∀ s, InvC1 s → InvC1 (stopRecording s).1) ∧
    (∀ s, InvC1 s → InvC1 (togglePushToTalk s)) ∧
    (∀ s, InvC1 s → InvC1 (stopSession s)) ∧
    (∀ s, InvC1 s → s.isPushToTalkEnabled = true → InvC1 (startRecording cfg s)) :=
  ⟨fun s h => reachable_invC1 cfg s h,
   fun _ _ => invC1_stopRecording,
   fun _ _ => invC1_togglePushToTalk,
   fun _ _ => invC1_stopSession,
   fun _ h hp => invC1_startRecording cfg h hp⟩

/-- Witness for C1: the amended theorem applied at the initial state and
at a concrete recording state. -/
theorem C1_recording_invariant_witness :
    InvC1 (initState cfg0) ∧
    InvC1 (stopRecording recState).1 ∧
    InvC1 (togglePushToTalk recState) ∧
    InvC1 (stopSession recState) ∧
    InvC1 (startRecording cfg0 recState) := by
  have H := C1_recording_invariant cfg0
  have hrec : InvC1 recState := by decide
  exact ⟨H.1 _ Reachable.init, H.2.1 _ hrec, H.2.2.1 _ hrec,
         H.2.2.2.1 _ hrec, H.2.2.2.2 _ hrec rfl⟩

/-- C2: `startRecording` moves Idle to Recording only when the session is
active, a data channel is present and recording is not already in
progress, and otherwise changes nothing; on a successful start it enables
the microphone track and arms the auto-stop timer for the configured
limit, whose environment fallback is 5000 ms. -/
theorem C2_startRecording_spec (cfg : Config) (s : AppState) :
    ((s.isSessionActive = true ∧ s.dataChannel.isSome = true ∧ s.isRecording = false) →
      (startRecording cfg s).isRecording = true ∧
      (startRecording cfg s).micTrack = s.micTrack.map (fun _ => true) ∧
      (startRecording cfg s).spaceKeyTimer = some cfg.pushToTalkTimeLimit ∧
      (startRecording cfg s).isSessionActive = s.isSessionActive ∧
      (startRecording cfg s).dataChannel = s.dataChannel ∧
      (startRecording cfg s).isPushToTalkEnabled = s.isPushToTalkEnabled ∧
      (startRecording cfg s).events = s.events ∧
      (startRecording cfg s).vadThreshold = s.vadThreshold) ∧
    (¬(s.isSessionActive = true ∧ s.dataChannel.isSome = true ∧ s.isRecording = false) →
      startRecording cfg s = s) ∧
    pushToTalkTimeLimitOfEnv none = 5000 := by
  refine ⟨fun h => ?_, fun h => ?_, rfl⟩
  · obtain ⟨h1, h2, h3⟩ := h
    simp [startRecording, toggleMicrophone, h1, h2, h3]
  · simp [startRecording, h]

/-- Witness for C2: a successful start from the active continuous-mode
state and a refused start from the initial state. -/
theorem C2_startRecording_spec_witness :
    ((startRecording cfg0 chanState).isRecording = true ∧
     (startRecording cfg0 chanState).micTrack = chanState.micTrack.map (fun _ => true) ∧
     (startRecording cfg0 chanState).spaceKeyTimer = some cfg0.pushToTalkTimeLimit) ∧
    startRecording cfg0 (initState cfg0) = initState cfg0 := by
  obtain ⟨h1, h2, h3, -⟩ := (C2_startRecording_spec cfg0 chanState).1 (by decide)
  exact ⟨⟨h1, h2, h3⟩, (C2_startRecording_spec cfg0 (initState cfg0)).2.1 (by decide)⟩

/-- C3: `stopRecording` while recording cancels the auto-stop timer,
clears the recording flag, disables the microphone track and emits exactly
one "response.create" message; while not recording it returns the state
unchanged and sends nothing. -/
theorem C3_stopRecording_spec (s : AppState) :
    (s.isRecording = false → stopRecording s = (s, [])) ∧
    (s.isRecording = true → s.dataChannel.isSome = true →
      (stopRecording s).1.spaceKeyTimer = none ∧
      (stopRecording s).1.isRecording = false ∧
      (stopRecording s).1.micTrack = s.micTrack.map (fun _ => false) ∧
      (stopRecording s).2.map Msg.type = ["response.create"]) := by
  constructor
  · intro h
    simp [stopRecording, h]
  · intro h hc
    obtain ⟨c, hc'⟩ := Option.isSome_iff_exists.mp hc
    simp [stopRecording, h, toggleMicrophone, sendClientEvent, hc']

/-- Witness for C3: a no-op stop from the initial state and a real stop
from the concrete recording state. -/
theorem C3_stopRecording_spec_witness :
    stopRecording (initState cfg0) = (initState cfg0, []) ∧
    ((stopRecording recState).1.spaceKeyTimer = none ∧
     (stopRecording recState).1.isRecording = false ∧
     (stopRecording recState).1.micTrack = recState.micTrack.map (fun _ => false) ∧
     (stopRecording recState).2.map Msg.type = ["response.create"]) :=
  ⟨(C3_stopRecording_spec (initState cfg0)).1 rfl,
   (C3_stopRecording_spec recState).2 rfl rfl⟩

/-- C4: `updateVADSettings` sends a message iff the data channel exists
with readyState open and push-to-talk is disabled; the message carries the
current threshold and a silence duration of 1000 iff the threshold
exceeds 0.7 and 500 otherwise; in every other state it changes nothing
and sends nothing. -/
theorem C4_updateVADSettings_spec (s : AppState) :
    ((updateVADSettings s).2 ≠ [] ↔
      (s.dataChannel = some DCState.dcOpen ∧ s.isPushToTalkEnabled = false)) ∧
    ((s.dataChannel = some DCState.dcOpen ∧ s.isPushToTalkEnabled = false) →
      (updateVADSettings s).2.map
          (fun m => (m.type, m.threshold, m.silence_duration_ms)) =
        [("session.update", some s.vadThreshold,
          some (if s.vadThreshold > 7/10 then 1000 else 500))]) ∧
    (¬(s.dataChannel = some DCState.dcOpen ∧ s.isPushToTalkEnabled = false) →
      updateVADSettings s = (s, [])) := by
  by_cases h : s.dataChannel = some DCState.dcOpen ∧ s.isPushToTalkEnabled = false
  · obtain ⟨h1, h2⟩ := h
    have he : updateVADSettings s = sendClientEvent s (vadEvent s.vadThreshold) := by
      unfold updateVADSettings
      rw [if_pos ⟨h1, h2⟩]
    refine ⟨?_, fun _ => ?_, fun hn => absurd ⟨h1, h2⟩ hn⟩
    · rw [he]
      exact iff_of_true (by simp [sendClientEvent, h1]) ⟨h1, h2⟩
    · rw [he]
      simp [sendClientEvent, h1, vadEvent]
  · have he : updateVADSettings s = (s, []) := by
      unfold updateVADSettings
      rw [if_neg h]
    exact ⟨by rw [he]; exact iff_of_false (by simp) h,
           fun hc => absurd hc h, fun _ => he⟩

/-- Witness for C4: a dispatch from the open continuous-mode state and a
skipped dispatch from the push-to-talk recording state. -/
theorem C4_updateVADSettings_spec_witness :
    (updateVADSettings chanState).2.map
        (fun m => (m.type, m.threshold, m.silence_duration_ms)) =
      [("session.update", some chanState.vadThreshold,
        some (if chanState.vadThreshold > 7/10 then 1000 else 500))] ∧
    updateVADSettings recState = (recState, []) :=
  ⟨(C4_updateVADSettings_spec chanState).2.1 ⟨rfl, rfl⟩,
   (C4_updateVADSettings_spec recState).2.2 (by decide)⟩

/-- C5, counterexample: `resetVadThreshold` stores the configured default
without clamping and without a warning, so with bounds [0, 1] and an
environment default of 2 the stored value 2 exceeds the upper bound,
refuting that the clamping holds for every write including reset. -/
theorem C5_reset_not_clamped :
    (resetVadThreshold cfgBadDefault (initState cfgBadDefault)).vadThreshold = 2 ∧
    cfgBadDefault.vadThresholdMin = 0 ∧
    cfgBadDefault.vadThresholdMax = 1 ∧
    ¬((resetVadThreshold cfgBadDefault (initState cfgBadDefault)).vadThreshold ≤
        cfgBadDefault.vadThresholdMax) := by
  have h : ¬((2 : ℚ) ≤ 1) := by norm_num
  exact ⟨rfl, rfl, rfl, h⟩

/-- C5 (amended): `validateAndSetVadThreshold` clamps every value it
writes into the configured bounds and warns exactly when the input was out
of range (so input 1.2 with bounds [0, 1] stores 1.0 with a warning);
`resetVadThreshold` stores the configured default unclamped, hence within
bounds exactly when the configured default is. -/
theorem C5_vadThreshold_clamped (cfg : Config) (s : AppState) (v : ℚ)
    (h : cfg.vadThresholdMin ≤ cfg.vadThresholdMax) :
    (cfg.vadThresholdMin ≤ (validateAndSetVadThreshold cfg s v).1.vadThreshold ∧
     (validateAndSetVadThreshold cfg s v).1.vadThreshold ≤ cfg.vadThresholdMax) ∧
    ((validateAndSetVadThreshold cfg s v).2 = true ↔
      v < cfg.vadThresholdMin ∨ cfg.vadThresholdMax < v) ∧
    (resetVadThreshold cfg s).vadThreshold = cfg.vadThresholdDefault ∧
    (cfg.vadThresholdMin ≤ cfg.vadThresholdDefault →
      cfg.vadThresholdDefault ≤ cfg.vadThresholdMax →
      cfg.vadThresholdMin ≤ (resetVadThreshold cfg s).vadThreshold ∧
      (resetVadThreshold cfg s).vadThreshold ≤ cfg.vadThresholdMax) := by
  refine ⟨⟨le_max_left _ _, max_le h (min_le_left _ _)⟩, ?_,
          rfl, fun h1 h2 => ⟨h1, h2⟩⟩
  simp only [validateAndSetVadThreshold, decide_eq_true_eq]
  constructor
  · intro hne
    by_contra hcon
    push_neg at hcon
    apply hne
    rw [min_eq_right hcon.2, max_eq_right hcon.1]
  · intro hor
    rcases hor with hlt | hgt
    · rw [min_eq_right (hlt.le.trans h), max_eq_left hlt.le]
      exact ne_of_lt hlt
    · rw [min_eq_left hgt.le, max_eq_right h]
      exact ne_of_gt hgt

/-- Witness for C5: the spec example, input 1.2 with bounds [0, 1] stores
1.0 and warns. -/
theorem C5_vadThreshold_clamped_witness :
    (validateAndSetVadThreshold cfg0 (initState cfg0) (6/5)).1.vadThreshold ≤
      cfg0.vadThresholdMax ∧
    (validateAndSetVadThreshold cfg0 (initState cfg0) (6/5)).2 = true ∧
    (validateAndSetVadThreshold cfg0 (initState cfg0) (6/5)).1.vadThreshold = 1 := by
  have H := C5_vadThreshold_clamped cfg0 (initState cfg0) (6/5) (by norm_num [cfg0])
  refine ⟨H.1.2, H.2.1.mpr (Or.inr (by norm_num [cfg0])), ?_⟩
  show max (0 : ℚ) (min 1 (6/5)) = 1
  rw [min_eq_left (by norm_num), max_eq_right (by norm_num)]

/-- C6: `togglePushToTalk` always flips the mode, resets the recording
flag, cancels any pending auto-stop timer and sets the microphone enabled
flag complementary to the new mode; and the toggle trigger has no effect
while the session is active (the checkbox is disabled, so it is invoked
only while the session is inactive). -/
theorem C6_togglePushToTalk_spec (cfg : Config) (s : AppState) :
    (togglePushToTalk s).isPushToTalkEnabled = !s.isPushToTalkEnabled ∧
    (togglePushToTalk s).isRecording = false ∧
    (togglePushToTalk s).spaceKeyTimer = none ∧
    (togglePushToTalk s).micTrack =
      s.micTrack.map (fun _ => !(togglePushToTalk s).isPushToTalkEnabled) ∧
    (s.isSessionActive = true → step cfg s Trigger.togglePTT = s) := by
  refine ⟨rfl, rfl, rfl, ?_, fun h => ?_⟩
  · simp [togglePushToTalk, toggleMicrophone]
  · simp [step, h]

/-- Witness for C6: toggling from the recording state, and the disabled
toggle while the session is active. -/
theorem C6_togglePushToTalk_spec_witness :
    (togglePushToTalk recState).isPushToTalkEnabled = !recState.isPushToTalkEnabled ∧
    (togglePushToTalk recState).isRecording = false ∧
    (togglePushToTalk recState).spaceKeyTimer = none ∧
    step cfg0 recState Trigger.togglePTT = recState := by
  have H := C6_togglePushToTalk_spec cfg0 recState
  exact ⟨H.1, H.2.1, H.2.2.1, H.2.2.2.2 rfl⟩

/-- C7: each sent or received record is prepended to the event log (the
log is never truncated), and the log is cleared when the data channel
opens, starting the new session. -/
theorem C7_eventLog_spec (s : AppState) (m : Msg) :
    (s.dataChannel.isSome = true →
      ∃ r, (sendClientEvent s m).1.events = r :: s.events) ∧
    (∃ r, (handleChannelMessage s m).events = r :: s.events) ∧
    (s.dataChannel.isSome = true → (handleChannelOpen s).events = []) := by
  refine ⟨fun hc => ?_, ⟨_, rfl⟩, fun hc => ?_⟩
  · obtain ⟨c, hc'⟩ := Option.isSome_iff_exists.mp hc
    unfold sendClientEvent
    rw [hc']
    exact ⟨_, rfl⟩
  · obtain ⟨c, hc'⟩ := Option.isSome_iff_exists.mp hc
    simp [handleChannelOpen, hc']

/-- Witness for C7: sending from the open-channel state prepends one
record, and the open event clears the log. -/
theorem C7_eventLog_spec_witness :
    (∃ r, (sendClientEvent chanState { type := "response.create" }).1.events =
      r :: chanState.events) ∧
    (handleChannelOpen chanState).events = [] := by
  have H := C7_eventLog_spec chanState { type := "response.create" }
  exact ⟨H.1 rfl, H.2.2 rfl⟩

/-- C8, counterexample: `sendClientEvent` serializes and sends the message
before attaching the timestamp (App.jsx lines 42-49, with a comment that
the backend peer does not expect the field), so the wire message sent from
the open-channel state carries an event_id but no timestamp, refuting that
the serialized message carries both. -/
theorem C8_wire_lacks_timestamp :
    (sendClientEvent chanState { type := "response.create" }).2.map Msg.event_id =
      [some 0] ∧
    (sendClientEvent chanState { type := "response.create" }).2.map Msg.timestamp =
      [none] := by
  constructor <;> rfl

/-- C8 (amended): every wire message carries its type and a generated
event_id but no timestamp (for messages that arrive without one); the
timestamp is attached only to the record prepended to the event log after
sending. -/
theorem C8_sendClientEvent_schema (s : AppState) (m : Msg)
    (hc : s.dataChannel.isSome = true) (hi : m.event_id = none)
    (ht : m.timestamp = none) :
    (sendClientEvent s m).2.map Msg.type = [m.type] ∧
    (sendClientEvent s m).2.map Msg.event_id = [some s.nextId] ∧
    (sendClientEvent s m).2.map Msg.timestamp = [none] ∧
    (sendClientEvent s m).1.events.head?.map Msg.timestamp = some (some s.now) := by
  obtain ⟨c, hc'⟩ := Option.isSome_iff_exists.mp hc
  simp [sendClientEvent, hc', hi, ht]

/-- Witness for C8: the schema of a concrete send from the open-channel
state. -/
theorem C8_sendClientEvent_schema_witness :
    (sendClientEvent chanState { type := "response.create" }).2.map Msg.type =
      ["response.create"] ∧
    (sendClientEvent chanState { type := "response.create" }).1.events.head?.map
      Msg.timestamp = some (some chanState.now) := by
  have H := C8_sendClientEvent_schema chanState { type := "response.create" } rfl rfl rfl
  exact ⟨H.1, H.2.2.2⟩

/-- C9: unavailable instrumentation is non-fatal and yields null:
`measureMemoryUsage` without `performance.memory` returns null with only a
warning and untouched metrics, and `getWebRTCStats` returns null when the
peer connection is absent or when `getStats` fails. -/
theorem C9_perf_nonfatal (m : PerfMetrics) (pc : RTCPeer) (e : String)
    (he : pc.getStatsResult = Except.error e) :
    measureMemoryUsage none m = (none, m, true) ∧
    getWebRTCStats none = none ∧
    getWebRTCStats (some pc) = none := by
  refine ⟨rfl, rfl, ?_⟩
  simp [getWebRTCStats, he]

/-- Witness for C9: fresh metrics and a concrete failing peer. -/
theorem C9_perf_nonfatal_witness :
    measureMemoryUsage none emptyMetrics = (none, emptyMetrics, true) ∧
    getWebRTCStats (some failingPeer) = none := by
  have H := C9_perf_nonfatal emptyMetrics failingPeer "stats failed" rfl
  exact ⟨H.1, H.2.2⟩

/-- C10: for every input string, `sendTextMessage` (the data channel being
present) emits exactly two messages in order: a `conversation.item.create`
whose item is a user-role message carrying the text as `input_text`,
followed by a `response.create`. -/
theorem C10_sendTextMessage_spec (s : AppState) (t : String)
    (hc : s.dataChannel.isSome = true) :
    (sendTextMessage s t).2.map
        (fun m => (m.type, m.itemRole, m.itemContentType, m.itemText)) =
      [("conversation.item.create", some "user", some "input_text", some t),
       ("response.create", none, none, none)] := by
  obtain ⟨c, hc'⟩ := Option.isSome_iff_exists.mp hc
  simp [sendTextMessage, sendClientEvent, hc']

/-- Witness for C10: a concrete text message from the open-channel
state. -/
theorem C10_sendTextMessage_spec_witness :
    (sendTextMessage chanState "hello").2.map
        (fun m => (m.type, m.itemRole, m.itemContentType, m.itemText)) =
      [("conversation.item.create", some "user", some "input_text", some "hello"),
       ("response.create", none, none, none)] :=
  C10_sendTextMessage_spec chanState "hello" rfl

end Talktive
